import Mathlib

/-
Shallow embedding of the parts inventory service (src/app.py).

The service manages a single entity, `Part`, stored in a table keyed by an
auto-assigned integer id.  Request payloads are JSON objects; we model them
as a record of optional typed fields plus the list of unrecognized keys.
Numbers are modelled as rationals, ids as naturals; the storage layer is a
list of records together with the next id the engine will assign
(the spec's storage contract: ids unique, monotonically assigned, never
reused).
-/

namespace PartsApp

/-- Record stored in the parts table (class Part in app.py). -/
structure Part where
  id : Nat
  name : String
  type : String
  release_date : Int
  core_clock : Rat
  boost_clock : Option Rat
  clock_unit : String
  price : Rat
  TDP : Rat
  part_no : String
deriving DecidableEq

/-- JSON body of a request.  Each recognized key is an optional field
(`none` means the key is absent); `idKey` records presence of an "id" key;
`boost_clock` distinguishes an absent key (`none`), an explicit JSON null
(`some none`) and a number (`some (some q)`); `extra` holds the
unrecognized keys. -/
structure Payload where
  idKey : Bool
  name : Option String
  type : Option String
  release_date : Option Int
  core_clock : Option Rat
  boost_clock : Option (Option Rat)
  clock_unit : Option String
  price : Option Rat
  TDP : Option Rat
  part_no : Option String
  extra : List String
deriving DecidableEq

/-- Storage state: the table of parts plus the next id the engine assigns. -/
structure DB where
  parts : List Part
  nextId : Nat
deriving DecidableEq

/-- Thin projection returned by the list endpoint: id, name, type, price. -/
structure Projection where
  id : Nat
  name : String
  type : String
  price : Rat
deriving DecidableEq

/-- Response bodies of the service, one constructor per JSON shape. -/
inductive Body where
  | err (message : String)
  | created (message : String) (id : Nat)
  | ok (message : String)
  | partRecord (p : Part)
  | listing (total : Nat) (average_price : Rat) (parts : List Projection)
  | notRouted
deriving DecidableEq

/-- Response: body plus HTTP status code. -/
structure Resp where
  body : Body
  code : Nat
deriving DecidableEq

/-- HTTP method of a request; `OTHER` covers anything outside the five the
app handles (e.g. HEAD). -/
inductive Method where
  | GET | POST | PUT | PATCH | DELETE
  | OTHER (s : String)
deriving DecidableEq

/-- Error helper part_not_found in app.py. -/
def part_not_found : Resp := ⟨.err "Part not found.", 404⟩

/-- Error helper part_type_invalid in app.py. -/
def part_type_invalid : Resp := ⟨.err "Invalid type. Valid choices are ‘CPU’ and ‘GPU’.", 400⟩

/-- Error helper id_supplied_error in app.py. -/
def id_supplied_error : Resp := ⟨.err "Client cannot supply id.", 400⟩

/-- The required_fields list of add_part and update_part, in source order. -/
def required_fields : List String :=
  ["name", "type", "release_date", "core_clock", "clock_unit", "price", "TDP", "part_no"]

/-- Python's `f in request.json` for our payload model. -/
def hasKey (p : Payload) (f : String) : Bool :=
  if f = "id" then p.idKey
  else if f = "name" then p.name.isSome
  else if f = "type" then p.type.isSome
  else if f = "release_date" then p.release_date.isSome
  else if f = "core_clock" then p.core_clock.isSome
  else if f = "boost_clock" then p.boost_clock.isSome
  else if f = "clock_unit" then p.clock_unit.isSome
  else if f = "price" then p.price.isSome
  else if f = "TDP" then p.TDP.isSome
  else if f = "part_no" then p.part_no.isSome
  else p.extra.contains f

/-- The missing-fields comprehension of add_part and update_part. -/
def missing_fields (p : Payload) : List String :=
  required_fields.filter (fun f => !(hasKey p f))

/-- Record inserted by add_part: payload fields plus the assigned id;
boost_clock is None when the key is absent. -/
def new_part_of (p : Payload) (i : Nat) : Part :=
  ⟨i, p.name.getD "", p.type.getD "", p.release_date.getD 0, p.core_clock.getD 0,
   p.boost_clock.getD none, p.clock_unit.getD "", p.price.getD 0, p.TDP.getD 0,
   p.part_no.getD ""⟩

/-- Handler add_part (PUT /parts): missing-fields check, then id check, then
case-sensitive type check, then insert. -/
def add_part (p : Payload) (db : DB) : Resp × DB :=
  if missing_fields p ≠ [] then
    (⟨.err ("Missing required fields: " ++ String.intercalate ", " (missing_fields p)), 400⟩, db)
  else if p.idKey then (id_supplied_error, db)
  else if p.type.getD "" ∉ (["CPU", "GPU"] : List String) then (part_type_invalid, db)
  else
    (⟨.created "New part added" db.nextId, 200⟩,
     ⟨db.parts ++ [new_part_of p db.nextId], db.nextId + 1⟩)

/-- Python str.upper / SQL upper-casing, character-wise (ASCII). -/
def str_upper (s : String) : String := ⟨s.data.map Char.toUpper⟩

/-- Python str.lower, character-wise (ASCII). -/
def str_lower (s : String) : String := ⟨s.data.map Char.toLower⟩

/-- Python str.startswith. -/
def starts_with (s pre : String) : Bool := s.data.take pre.data.length == pre.data

/-- Substring test: does `hay` contain `pat` as a contiguous substring. -/
def str_contains (hay pat : String) : Bool :=
  (List.range (hay.data.length + 1)).any
    (fun i => ((hay.data.drop i).take pat.data.length) == pat.data)

/-- SQL `ilike %pat%`: case-insensitive substring match. -/
def ilike_contains (hay pat : String) : Bool :=
  str_contains (str_upper hay) (str_upper pat)

/-- Python's round to the nearest integer, ties to even (banker's rounding). -/
def round_half_even (q : Rat) : Int :=
  if q - (Rat.floor q : Rat) < 1/2 then Rat.floor q
  else if (1 : Rat)/2 < q - (Rat.floor q : Rat) then Rat.floor q + 1
  else if Rat.floor q % 2 = 0 then Rat.floor q else Rat.floor q + 1

/-- Python's round(q, 2). -/
def round2 (q : Rat) : Rat := (round_half_even (q * 100) : Rat) / 100

/-- Projection built by the get_part loop. -/
def projection_of (p : Part) : Projection := ⟨p.id, p.name, p.type, p.price⟩

/-- Body assembled by get_part from the selected rows: projections, their
count, and the rounded average price (0 when there are no rows). -/
def list_response (parts : List Part) : Body :=
  .listing (parts.map projection_of).length
    (if (parts.map projection_of).length ≠ 0 then
       round2 (((parts.map projection_of).map (fun r => r.price)).sum
         / ((parts.map projection_of).length : Rat))
     else 0)
    (parts.map projection_of)

/-- Handler get_part (GET /parts): optional type filter, gate-checked by
uppercasing against GPU/CPU, then matched as a case-insensitive substring.
A missing or empty filter value is falsy in Python and means no filter. -/
def get_part (qtype : Option String) (db : DB) : Resp × DB :=
  if qtype.getD "" ≠ "" then
    if str_upper (qtype.getD "") ∉ (["GPU", "CPU"] : List String) then (part_type_invalid, db)
    else
      (⟨list_response (db.parts.filter (fun q => ilike_contains q.type (qtype.getD ""))), 200⟩, db)
  else (⟨list_response db.parts, 200⟩, db)

/-- Handler get_part_by_id (GET /parts/id). -/
def get_part_by_id (id : Nat) (db : DB) : Resp × DB :=
  match db.parts.find? (fun q => q.id == id) with
  | none => (part_not_found, db)
  | some part => (⟨.partRecord part, 200⟩, db)

/-- Full replacement performed by update_part: every writable field is
overwritten from the payload; boost_clock comes from `data.get`, so an
absent key or an explicit null both store None. -/
def replace_part (p : Payload) (part : Part) : Part :=
  { part with
    name := p.name.getD "", type := p.type.getD "",
    release_date := p.release_date.getD 0, core_clock := p.core_clock.getD 0,
    boost_clock := p.boost_clock.getD none, clock_unit := p.clock_unit.getD "",
    price := p.price.getD 0, TDP := p.TDP.getD 0, part_no := p.part_no.getD "" }

/-- Handler update_part (POST /parts/id): lookup, id check, missing-fields
check, then the truthiness-guarded uppercased type check, then full replace. -/
def update_part (id : Nat) (p : Payload) (db : DB) : Resp × DB :=
  match db.parts.find? (fun q => q.id == id) with
  | none => (part_not_found, db)
  | some _ =>
    if p.idKey then (id_supplied_error, db)
    else if missing_fields p ≠ [] then
      (⟨.err ("Missing fields: " ++ String.intercalate ", " (missing_fields p)), 400⟩, db)
    else if p.type.getD "" ≠ "" ∧ str_upper (p.type.getD "") ∉ (["CPU", "GPU"] : List String) then
      (part_type_invalid, db)
    else
      (⟨.ok "Part details updated", 200⟩,
       ⟨db.parts.map (fun q => if q.id == id then replace_part p q else q), db.nextId⟩)

/-- Merge performed by modify_part: each recognized key present in the
payload overwrites the field, absent keys keep the prior value, and the
unrecognized keys in `extra` have no effect. -/
def merge_part (p : Payload) (part : Part) : Part :=
  { part with
    name := p.name.getD part.name, type := p.type.getD part.type,
    release_date := p.release_date.getD part.release_date,
    core_clock := p.core_clock.getD part.core_clock,
    boost_clock := p.boost_clock.getD part.boost_clock,
    clock_unit := p.clock_unit.getD part.clock_unit,
    price := p.price.getD part.price, TDP := p.TDP.getD part.TDP,
    part_no := p.part_no.getD part.part_no }

/-- Handler modify_part (PATCH /parts/id): lookup, id check, lowercased type
check when the key is present, then field-wise merge. -/
def modify_part (id : Nat) (p : Payload) (db : DB) : Resp × DB :=
  match db.parts.find? (fun q => q.id == id) with
  | none => (part_not_found, db)
  | some _ =>
    if p.idKey then (id_supplied_error, db)
    else if p.type.any (fun ty => !((["cpu", "gpu"] : List String).contains (str_lower ty))) then
      (part_type_invalid, db)
    else
      (⟨.ok "Part modified", 200⟩,
       ⟨db.parts.map (fun q => if q.id == id then merge_part p q else q), db.nextId⟩)

/-- Handler delete_part (DELETE /parts/id). -/
def delete_part (id : Nat) (db : DB) : Resp × DB :=
  match db.parts.find? (fun q => q.id == id) with
  | none => (part_not_found, db)
  | some _ =>
    (⟨.ok "Part deleted", 200⟩, ⟨db.parts.filter (fun q => !(q.id == id)), db.nextId⟩)

/-- The five methods the before_request hook lets through. -/
def allowed_methods : List Method := [.PUT, .POST, .GET, .PATCH, .DELETE]

/-- The before_request hook validate_request: any other method on a path
under /parts is answered 405 with the fixed envelope before routing. -/
def validate_request (m : Method) (path : String) : Option Resp :=
  if m ∉ allowed_methods ∧ starts_with path "/parts" then
    some ⟨.err "405 Method Not Allowed Allow: GET, POST, PUT, PATCH, DELETE", 405⟩
  else none

/-- Route recognized by the Flask URL map. -/
inductive Route where
  | collection
  | item (id : Nat)
  | unmatched

/-- Path parsing of the URL map: /parts and /parts/id. -/
def route_of (path : String) : Route :=
  if path = "/parts" then .collection
  else if path.startsWith "/parts/" then
    match (path.drop 7).toNat? with
    | some n => .item n
    | none => .unmatched
  else .unmatched

/-- Dispatch of a routed request to its handler; combinations with no
registered handler fall through to the framework's default response. -/
def dispatch (m : Method) (r : Route) (qtype : Option String) (p : Payload) (db : DB) :
    Resp × DB :=
  match r, m with
  | .collection, .PUT => add_part p db
  | .collection, .GET => get_part qtype db
  | .item i, .GET => get_part_by_id i db
  | .item i, .POST => update_part i p db
  | .item i, .PATCH => modify_part i p db
  | .item i, .DELETE => delete_part i db
  | _, _ => (⟨.notRouted, 404⟩, db)

/-- Whole request pipeline: the before_request hook, then routing, then the
handler. -/
def handle (m : Method) (path : String) (qtype : Option String) (p : Payload) (db : DB) :
    Resp × DB :=
  match validate_request m path with
  | some r => (r, db)
  | none => dispatch m (route_of path) qtype p db

/-- One state-changing API operation, for reasoning about sequences. -/
inductive Op where
  | create (p : Payload)
  | fullUpdate (id : Nat) (p : Payload)
  | patchUpdate (id : Nat) (p : Payload)
  | fetch (id : Nat)
  | listParts (q : Option String)
  | remove (id : Nat)

/-- Effect of one operation on storage. -/
def apply_op (db : DB) (op : Op) : DB :=
  match op with
  | .create p => (add_part p db).2
  | .fullUpdate i p => (update_part i p db).2
  | .patchUpdate i p => (modify_part i p db).2
  | .fetch i => (get_part_by_id i db).2
  | .listParts q => (get_part q db).2
  | .remove i => (delete_part i db).2

/-- Initial storage: empty table, first id 1. -/
def initDB : DB := ⟨[], 1⟩

/-- Storage reached by a sequence of operations from the initial state. -/
def exec (ops : List Op) : DB := ops.foldl apply_op initDB


/-- Expected success outcome of add_part: all required fields present, no
client-supplied id, and a case-sensitively valid type. -/
def create_ok (p : Payload) : Bool :=
  (missing_fields p == []) && !p.idKey
    && ((p.type.getD "" == "CPU") || (p.type.getD "" == "GPU"))

/-- Types that the handlers can let into storage: the case-insensitive
variants of CPU and GPU, plus the empty string that slips through
update_part when the type value is falsy. -/
def TypeOk (s : String) : Prop :=
  str_upper s = "CPU" ∨ str_upper s = "GPU" ∨ str_lower s = "cpu" ∨ str_lower s = "gpu" ∨ s = ""

instance (s : String) : Decidable (TypeOk s) := by
  unfold TypeOk
  infer_instance

/-- Storage invariant: every stored part has a TypeOk type. -/
def TypeInv (db : DB) : Prop := ∀ q ∈ db.parts, TypeOk q.type

/-- Storage invariant: every stored id is below the engine's next id. -/
def IdInv (db : DB) : Prop := ∀ q ∈ db.parts, q.id < db.nextId

theorem add_part_state (p : Payload) (db : DB) :
    (add_part p db).2 = db ∨
    ((add_part p db).2 = ⟨db.parts ++ [new_part_of p db.nextId], db.nextId + 1⟩ ∧
      (p.type.getD "" = "CPU" ∨ p.type.getD "" = "GPU")) := by
  unfold add_part
  split
  · exact Or.inl rfl
  · split
    · exact Or.inl rfl
    · split
      · exact Or.inl rfl
      · rename_i h
        refine Or.inr ⟨rfl, ?_⟩
        simpa using not_not.mp h

theorem update_part_state (i : Nat) (p : Payload) (db : DB) :
    (update_part i p db).2 = db ∨
    ((update_part i p db).2 =
        ⟨db.parts.map (fun q => if q.id == i then replace_part p q else q), db.nextId⟩ ∧
      (p.type.getD "" = "" ∨ str_upper (p.type.getD "") = "CPU" ∨
        str_upper (p.type.getD "") = "GPU")) := by
  unfold update_part
  split
  · exact Or.inl rfl
  · split
    · exact Or.inl rfl
    · split
      · exact Or.inl rfl
      · split
        · exact Or.inl rfl
        · rename_i h
          refine Or.inr ⟨rfl, ?_⟩
          push_neg at h
          by_cases he : p.type.getD "" = ""
          · exact Or.inl he
          · simpa using Or.inr (h he)

theorem modify_part_state (i : Nat) (p : Payload) (db : DB) :
    (modify_part i p db).2 = db ∨
    ((modify_part i p db).2 =
        ⟨db.parts.map (fun q => if q.id == i then merge_part p q else q), db.nextId⟩ ∧
      (∀ ty, p.type = some ty → str_lower ty = "cpu" ∨ str_lower ty = "gpu")) := by
  unfold modify_part
  split
  · exact Or.inl rfl
  · split
    · exact Or.inl rfl
    · split
      · exact Or.inl rfl
      · rename_i h
        refine Or.inr ⟨rfl, ?_⟩
        intro ty hty
        rw [hty] at h
        simp at h
        exact (or_iff_not_imp_left.mpr h)

theorem delete_part_state (i : Nat) (db : DB) :
    (delete_part i db).2 = db ∨
    (delete_part i db).2 = ⟨db.parts.filter (fun q => !(q.id == i)), db.nextId⟩ := by
  unfold delete_part
  split
  · exact Or.inl rfl
  · exact Or.inr rfl

theorem get_part_state (q : Option String) (db : DB) : (get_part q db).2 = db := by
  unfold get_part
  split
  · split <;> rfl
  · rfl

theorem get_part_by_id_state (i : Nat) (db : DB) : (get_part_by_id i db).2 = db := by
  unfold get_part_by_id
  split <;> rfl

theorem replace_part_id (p : Payload) (q : Part) : (replace_part p q).id = q.id := rfl

theorem merge_part_id (p : Payload) (q : Part) : (merge_part p q).id = q.id := rfl


theorem apply_op_type_inv (op : Op) (db : DB) (h : TypeInv db) : TypeInv (apply_op db op) := by
  cases op with
  | create p =>
    show TypeInv (add_part p db).2
    rcases add_part_state p db with heq | ⟨heq, hty⟩
    · rw [heq]; exact h
    · rw [heq]
      intro q hq
      rcases List.mem_append.mp hq with hq | hq
      · exact h q hq
      · rcases List.mem_singleton.mp hq with rfl
        show TypeOk (p.type.getD "")
        rcases hty with hty | hty <;> rw [hty] <;> decide
  | fullUpdate i p =>
    show TypeInv (update_part i p db).2
    rcases update_part_state i p db with heq | ⟨heq, hty⟩
    · rw [heq]; exact h
    · rw [heq]
      intro q hq
      rcases List.mem_map.mp hq with ⟨r, hr, rfl⟩
      by_cases hi : r.id == i
      · simp only [hi, if_true]
        show TypeOk (p.type.getD "")
        rcases hty with hty | hty | hty
        · rw [hty]; decide
        · exact Or.inl hty
        · exact Or.inr (Or.inl hty)
      · simp only [hi, if_false]
        exact h r hr
  | patchUpdate i p =>
    show TypeInv (modify_part i p db).2
    rcases modify_part_state i p db with heq | ⟨heq, hty⟩
    · rw [heq]; exact h
    · rw [heq]
      intro q hq
      rcases List.mem_map.mp hq with ⟨r, hr, rfl⟩
      by_cases hi : r.id == i
      · simp only [hi, if_true]
        show TypeOk (p.type.getD r.type)
        cases hpt : p.type with
        | none => simpa [hpt] using h r hr
        | some ty =>
          rcases hty ty hpt with hl | hl
          · exact Or.inr (Or.inr (Or.inl hl))
          · exact Or.inr (Or.inr (Or.inr (Or.inl hl)))
      · simp only [hi, if_false]
        exact h r hr
  | fetch i =>
    show TypeInv (get_part_by_id i db).2
    rw [get_part_by_id_state]; exact h
  | listParts q =>
    show TypeInv (get_part q db).2
    rw [get_part_state]; exact h
  | remove i =>
    show TypeInv (delete_part i db).2
    rcases delete_part_state i db with heq | heq
    · rw [heq]; exact h
    · rw [heq]
      intro q hq
      exact h q (List.mem_of_mem_filter hq)

theorem nextId_mono (op : Op) (db : DB) : db.nextId ≤ (apply_op db op).nextId := by
  have h : (apply_op db op).nextId = db.nextId ∨ (apply_op db op).nextId = db.nextId + 1 := by
    cases op with
    | create p =>
      rcases add_part_state p db with heq | ⟨heq, _⟩
      · have h2 := congrArg DB.nextId heq
        exact Or.inl h2
      · have h2 := congrArg DB.nextId heq
        exact Or.inr h2
    | fullUpdate i p =>
      rcases update_part_state i p db with heq | ⟨heq, _⟩ <;>
        · have h2 := congrArg DB.nextId heq
          exact Or.inl h2
    | patchUpdate i p =>
      rcases modify_part_state i p db with heq | ⟨heq, _⟩ <;>
        · have h2 := congrArg DB.nextId heq
          exact Or.inl h2
    | fetch i => exact Or.inl (congrArg DB.nextId (get_part_by_id_state i db))
    | listParts q => exact Or.inl (congrArg DB.nextId (get_part_state q db))
    | remove i =>
      rcases delete_part_state i db with heq | heq <;>
        · have h2 := congrArg DB.nextId heq
          exact Or.inl h2
  rcases h with h | h <;> omega

theorem apply_op_id_inv (op : Op) (db : DB) (h : IdInv db) : IdInv (apply_op db op) := by
  cases op with
  | create p =>
    show IdInv (add_part p db).2
    rcases add_part_state p db with heq | ⟨heq, _⟩
    · rw [heq]; exact h
    · rw [heq]
      intro q hq
      rcases List.mem_append.mp hq with hq | hq
      · exact Nat.lt_trans (h q hq) (Nat.lt_succ_self _)
      · rcases List.mem_singleton.mp hq with rfl
        exact Nat.lt_succ_self _
  | fullUpdate i p =>
    show IdInv (update_part i p db).2
    rcases update_part_state i p db with heq | ⟨heq, _⟩
    · rw [heq]; exact h
    · rw [heq]
      intro q hq
      rcases List.mem_map.mp hq with ⟨r, hr, rfl⟩
      by_cases hi : r.id == i
      · simpa only [hi, if_true, replace_part_id] using h r hr
      · simpa only [hi, if_false] using h r hr
  | patchUpdate i p =>
    show IdInv (modify_part i p db).2
    rcases modify_part_state i p db with heq | ⟨heq, _⟩
    · rw [heq]; exact h
    · rw [heq]
      intro q hq
      rcases List.mem_map.mp hq with ⟨r, hr, rfl⟩
      by_cases hi : r.id == i
      · simpa only [hi, if_true, merge_part_id] using h r hr
      · simpa only [hi, if_false] using h r hr
  | fetch i =>
    show IdInv (get_part_by_id i db).2
    rw [get_part_by_id_state]; exact h
  | listParts q =>
    show IdInv (get_part q db).2
    rw [get_part_state]; exact h
  | remove i =>
    show IdInv (delete_part i db).2
    rcases delete_part_state i db with heq | heq
    · rw [heq]; exact h
    · rw [heq]
      intro q hq
      exact h q (List.mem_of_mem_filter hq)

theorem exec_from_type_inv (ops : List Op) (db : DB) (h : TypeInv db) :
    TypeInv (ops.foldl apply_op db) := by
  induction ops generalizing db with
  | nil => exact h
  | cons op rest ih => exact ih _ (apply_op_type_inv op db h)

theorem exec_from_id_inv (ops : List Op) (db : DB) (h : IdInv db) :
    IdInv (ops.foldl apply_op db) := by
  induction ops generalizing db with
  | nil => exact h
  | cons op rest ih => exact ih _ (apply_op_id_inv op db h)

theorem exec_id_inv (ops : List Op) : IdInv (exec ops) :=
  exec_from_id_inv ops initDB (by intro q hq; simp [initDB] at hq)

theorem exec_from_nextId_mono (ops : List Op) (db : DB) :
    db.nextId ≤ (ops.foldl apply_op db).nextId := by
  induction ops generalizing db with
  | nil => exact le_refl _
  | cons op rest ih => exact le_trans (nextId_mono op db) (ih _)



theorem add_part_success (p : Payload) (db : DB) (h : create_ok p = true) :
    add_part p db =
      (⟨.created "New part added" db.nextId, 200⟩,
       ⟨db.parts ++ [new_part_of p db.nextId], db.nextId + 1⟩) := by
  unfold create_ok at h
  simp only [Bool.and_eq_true, Bool.or_eq_true, beq_iff_eq, Bool.not_eq_eq_eq_not,
    Bool.not_true] at h
  obtain ⟨⟨h1, h2⟩, h3⟩ := h
  unfold add_part
  rw [if_neg (by simp [h1]), if_neg (by simp [h2]),
    if_neg (by rcases h3 with h3 | h3 <;> simp [h3])]

/-- Ids handed out by one operation: only a successful create assigns one. -/
def op_assigns (db : DB) : Op → List Nat
  | .create p => if create_ok p then [db.nextId] else []
  | _ => []

/-- Ids handed out by the successful creates in a run of operations,
starting from the given state. -/
def assigned_ids : DB → List Op → List Nat
  | _, [] => []
  | db, op :: rest => op_assigns db op ++ assigned_ids (apply_op db op) rest

theorem op_assigns_spec (db : DB) (op : Op) (i : Nat) (h : i ∈ op_assigns db op) :
    i = db.nextId ∧ ∃ p, op = .create p ∧ create_ok p = true := by
  cases op with
  | create p =>
    rw [op_assigns] at h
    by_cases hc : create_ok p = true
    · rw [if_pos hc] at h
      rcases List.mem_singleton.mp h with rfl
      exact ⟨rfl, p, rfl, hc⟩
    · rw [if_neg hc] at h
      exact absurd h (List.not_mem_nil _)
  | fullUpdate j p => exact absurd h (List.not_mem_nil _)
  | patchUpdate j p => exact absurd h (List.not_mem_nil _)
  | fetch j => exact absurd h (List.not_mem_nil _)
  | listParts q => exact absurd h (List.not_mem_nil _)
  | remove j => exact absurd h (List.not_mem_nil _)

theorem assigned_lt (ops : List Op) (db : DB) :
    ∀ i ∈ assigned_ids db ops, i < (ops.foldl apply_op db).nextId := by
  induction ops generalizing db with
  | nil =>
    intro i hi
    exact absurd hi (List.not_mem_nil _)
  | cons op rest ih =>
    intro i hi
    rw [assigned_ids] at hi
    rw [List.foldl_cons]
    rcases List.mem_append.mp hi with h1 | h2
    · obtain ⟨rfl, p, rfl, hc⟩ := op_assigns_spec db op i h1
      have hstep : db.nextId < (apply_op db (Op.create p)).nextId := by
        have h2 : (add_part p db).2.nextId = db.nextId + 1 :=
          congrArg DB.nextId (congrArg Prod.snd (add_part_success p db hc))
        show db.nextId < (add_part p db).2.nextId
        rw [h2]
        exact Nat.lt_succ_self _
      exact lt_of_lt_of_le hstep (exec_from_nextId_mono rest _)
    · exact ih _ i h2

theorem find_none_of_lt (l : List Part) (i : Nat) (h : ∀ a ∈ l, a.id < i) :
    List.find? (fun r => r.id == i) l = none := by
  induction l with
  | nil => rfl
  | cons a l ih =>
    have ha : ¬((fun r : Part => r.id == i) a = true) := by
      have := h a (List.mem_cons_self a l)
      simp only [beq_iff_eq]
      omega
    rw [@List.find?_cons_of_neg _ (fun r : Part => r.id == i) a l ha]
    exact ih (fun b hb => h b (List.mem_cons_of_mem a hb))

theorem find_append_last (l : List Part) (x : Part) (i : Nat)
    (h : List.find? (fun r => r.id == i) l = none) (hx : (x.id == i) = true) :
    List.find? (fun r => r.id == i) (l ++ [x]) = some x := by
  induction l with
  | nil =>
    rw [List.nil_append]
    exact @List.find?_cons_of_pos _ (fun r : Part => r.id == i) x [] hx
  | cons a l ih =>
    by_cases hcond : a.id = i
    · rw [@List.find?_cons_of_pos _ (fun r : Part => r.id == i) a l (by simp [hcond])] at h
      exact absurd h (by simp)
    · rw [@List.find?_cons_of_neg _ (fun r : Part => r.id == i) a l (by simp [hcond])] at h
      rw [List.cons_append,
        @List.find?_cons_of_neg _ (fun r : Part => r.id == i) a (l ++ [x]) (by simp [hcond])]
      exact ih h

theorem find_map_update (l : List Part) (i : Nat) (g : Part → Part)
    (hg : ∀ q, (g q).id = q.id) :
    List.find? (fun r => r.id == i) (l.map (fun q => if q.id == i then g q else q)) =
      (List.find? (fun r => r.id == i) l).map g := by
  induction l with
  | nil => rfl
  | cons a l ih =>
    rw [List.map_cons]
    by_cases hcond : a.id = i
    · rw [if_pos (by simp [hcond])]
      rw [@List.find?_cons_of_pos _ (fun r : Part => r.id == i)
          (g a) (l.map (fun q => if q.id == i then g q else q)) (by simp [hg, hcond]),
        @List.find?_cons_of_pos _ (fun r : Part => r.id == i) a l (by simp [hcond])]
      rfl
    · rw [if_neg (by simp [hcond])]
      rw [@List.find?_cons_of_neg _ (fun r : Part => r.id == i)
          a (l.map (fun q => if q.id == i then g q else q)) (by simp [hcond]),
        @List.find?_cons_of_neg _ (fun r : Part => r.id == i) a l (by simp [hcond])]
      exact ih


/-- Sample valid create payload used by concrete instances. -/
def valid_payload : Payload :=
  ⟨false, some "A", some "CPU", some 2020, some 3, none, some "MHz", some 100, some 65,
   some "X1", []⟩

/-- Sample partial-update payload carrying only a lower-case type. -/
def patch_cpu : Payload :=
  ⟨false, none, some "cpu", none, none, none, none, none, none, none, []⟩

/-- Sample stored part with id 1. -/
def part1 : Part := ⟨1, "A", "CPU", 2020, 3, none, "MHz", 100, 65, "X1"⟩

/-- Sample one-row storage state holding part1. -/
def db1 : DB := ⟨[part1], 2⟩

/-- C1 counterexample: after Create of a valid CPU part followed by a
PartialUpdate whose type is "cpu" (accepted by the case-insensitive PATCH
check), storage holds a part whose type is "cpu", which is neither "CPU"
nor "GPU" case-sensitively. -/
theorem C1_counterexample :
    (exec [.create valid_payload, .patchUpdate 1 patch_cpu]).parts
      = [⟨1, "A", "cpu", 2020, 3, none, "MHz", 100, 65, "X1"⟩] ∧
    ("cpu" : String) ≠ "CPU" ∧ ("cpu" : String) ≠ "GPU" := by
  decide

/-- C1 amended: after any sequence of operations, every stored part's type
is case-insensitively "CPU" or "GPU" (its uppercasing is "CPU"/"GPU" or its
lowercasing is "cpu"/"gpu"), or is the empty string, which FullUpdate can
store because its type check is skipped for a falsy (empty) type value. -/
theorem C1_type_invariant (ops : List Op) (q : Part) (hq : q ∈ (exec ops).parts) :
    TypeOk q.type :=
  exec_from_type_inv ops initDB (by intro r hr; exact absurd hr (List.not_mem_nil r)) q hq

/-- Witness instantiating C1_type_invariant on a concrete run. -/
theorem C1_type_invariant_witness :
    part1 ∈ (exec [.create valid_payload]).parts ∧ TypeOk part1.type :=
  ⟨by decide, C1_type_invariant [.create valid_payload] part1 (by decide)⟩

/-- C7: GetById, FullUpdate, PartialUpdate and Delete on an id absent from
storage each answer 404 with the NotFound envelope and leave storage
exactly unchanged. -/
theorem C7_not_found (id : Nat) (p : Payload) (db : DB)
    (h : db.parts.find? (fun r => r.id == id) = none) :
    get_part_by_id id db = (part_not_found, db) ∧
    update_part id p db = (part_not_found, db) ∧
    modify_part id p db = (part_not_found, db) ∧
    delete_part id db = (part_not_found, db) ∧
    part_not_found = ⟨Body.err "Part not found.", 404⟩ := by
  refine ⟨?_, ?_, ?_, ?_, rfl⟩
  · unfold get_part_by_id
    rw [h]
  · unfold update_part
    rw [h]
  · unfold modify_part
    rw [h]
  · unfold delete_part
    rw [h]

/-- Witness instantiating C7_not_found at id 5 on the one-row store. -/
theorem C7_not_found_witness :
    db1.parts.find? (fun r => r.id == 5) = none ∧
    (get_part_by_id 5 db1 = (part_not_found, db1) ∧
     update_part 5 patch_cpu db1 = (part_not_found, db1) ∧
     modify_part 5 patch_cpu db1 = (part_not_found, db1) ∧
     delete_part 5 db1 = (part_not_found, db1) ∧
     part_not_found = ⟨Body.err "Part not found.", 404⟩) :=
  ⟨by decide, C7_not_found 5 patch_cpu db1 (by decide)⟩

/-- C9: a request whose method is outside GET/POST/PUT/PATCH/DELETE and
whose path starts with /parts is answered 405 with the fixed envelope by
the before_request hook, and storage is untouched (no handler runs). -/
theorem C9_method_not_allowed (m : Method) (path : String) (q : Option String)
    (p : Payload) (db : DB)
    (hm : m ∉ allowed_methods) (hp : starts_with path "/parts" = true) :
    handle m path q p db =
      (⟨.err "405 Method Not Allowed Allow: GET, POST, PUT, PATCH, DELETE", 405⟩, db) := by
  unfold handle validate_request
  rw [if_pos ⟨hm, hp⟩]

/-- Witness instantiating C9_method_not_allowed with HEAD on /parts. -/
theorem C9_method_not_allowed_witness :
    (Method.OTHER "HEAD") ∉ allowed_methods ∧
    starts_with "/parts" "/parts" = true ∧
    handle (Method.OTHER "HEAD") "/parts" none valid_payload db1 =
      (⟨.err "405 Method Not Allowed Allow: GET, POST, PUT, PATCH, DELETE", 405⟩, db1) :=
  ⟨by decide, by decide,
    C9_method_not_allowed (Method.OTHER "HEAD") "/parts" none valid_payload db1
      (by decide) (by decide)⟩

/-- C10: a payload that both carries an "id" key and misses required fields
is answered MissingFields by Create (missing-field check first) but
ClientSuppliedId by FullUpdate on an existing id (id check first). -/
theorem C10_error_precedence (p : Payload) (id : Nat) (db : DB) (part : Part)
    (hid : p.idKey = true) (hm : missing_fields p ≠ [])
    (hfind : db.parts.find? (fun r => r.id == id) = some part) :
    add_part p db =
      (⟨.err ("Missing required fields: " ++ String.intercalate ", " (missing_fields p)), 400⟩,
       db) ∧
    update_part id p db = (id_supplied_error, db) := by
  constructor
  · unfold add_part
    rw [if_pos hm]
  · unfold update_part
    rw [hfind, if_pos hid]

/-- Sample payload with a client-supplied id and missing fields. -/
def bad_payload : Payload :=
  ⟨true, some "A", none, none, none, none, none, none, none, none, []⟩

/-- Witness instantiating C10_error_precedence on the one-row store. -/
theorem C10_error_precedence_witness :
    bad_payload.idKey = true ∧ missing_fields bad_payload ≠ [] ∧
    db1.parts.find? (fun r => r.id == 1) = some part1 ∧
    (add_part bad_payload db1 =
      (⟨.err ("Missing required fields: "
          ++ String.intercalate ", " (missing_fields bad_payload)), 400⟩, db1) ∧
     update_part 1 bad_payload db1 = (id_supplied_error, db1)) :=
  ⟨by decide, by decide, by decide,
    C10_error_precedence bad_payload 1 db1 part1 (by decide) (by decide) (by decide)⟩


/-- Sample full-update payload with every required field and type "cpu". -/
def full_cpu_payload : Payload :=
  ⟨false, some "B", some "cpu", some 2021, some 4, none, some "MHz", some 200, some 95,
   some "X2", []⟩

/-- C2 counterexample: a FullUpdate of the existing part 1 whose payload
carries type "cpu" is accepted with 200 and overwrites every field, storing
"cpu" verbatim, instead of being rejected with InvalidType 400. -/
theorem C2_counterexample :
    (update_part 1 full_cpu_payload db1).1.code = 200 ∧
    (update_part 1 full_cpu_payload db1).2.parts
      = [⟨1, "B", "cpu", 2021, 4, none, "MHz", 200, 95, "X2"⟩] ∧
    ("cpu" : String) ≠ "CPU" ∧ ("cpu" : String) ≠ "GPU" := by
  decide

/-- C2 amended: FullUpdate validates the type through uppercasing, not
case-sensitively like Create: on an existing id, a payload with all
required fields, no id key, and a nonempty type whose uppercasing is not
"CPU" or "GPU" is rejected with InvalidType 400 and storage is unchanged. -/
theorem C2_full_update_type_check (id : Nat) (p : Payload) (db : DB) (part : Part)
    (ty : String)
    (hfind : db.parts.find? (fun r => r.id == id) = some part)
    (hid : p.idKey = false) (hm : missing_fields p = [])
    (hty : p.type = some ty) (hne : ty ≠ "")
    (hup : str_upper ty ∉ (["CPU", "GPU"] : List String)) :
    update_part id p db = (part_type_invalid, db) ∧ part_type_invalid.code = 400 := by
  refine ⟨?_, rfl⟩
  have hcond : p.type.getD "" ≠ ""
      ∧ str_upper (p.type.getD "") ∉ (["CPU", "GPU"] : List String) := by
    rw [hty]
    exact ⟨hne, hup⟩
  unfold update_part
  rw [hfind, if_neg (by simp [hid]), if_neg (by simp [hm]), if_pos hcond]

/-- Sample full-update payload whose type "APU" fails even the uppercased
check. -/
def full_apu_payload : Payload :=
  ⟨false, some "B", some "APU", some 2021, some 4, none, some "MHz", some 200, some 95,
   some "X2", []⟩

/-- Witness instantiating C2_full_update_type_check with type "APU". -/
theorem C2_full_update_type_check_witness :
    db1.parts.find? (fun r => r.id == 1) = some part1 ∧
    full_apu_payload.idKey = false ∧ missing_fields full_apu_payload = [] ∧
    full_apu_payload.type = some "APU" ∧ ("APU" : String) ≠ "" ∧
    str_upper "APU" ∉ (["CPU", "GPU"] : List String) ∧
    (update_part 1 full_apu_payload db1 = (part_type_invalid, db1) ∧
     part_type_invalid.code = 400) :=
  ⟨by decide, by decide, by decide, by decide, by decide, by decide,
    C2_full_update_type_check 1 full_apu_payload db1 part1 "APU"
      (by decide) (by decide) (by decide) (by decide) (by decide) (by decide)⟩

/-- Sample stored GPU part and the store holding it. -/
def gpu_part : Part := ⟨1, "G", "GPU", 2020, 3, none, "MHz", 100, 65, "X1"⟩

/-- One-row storage holding gpu_part. -/
def db_gpu : DB := ⟨[gpu_part], 2⟩

/-- C3 counterexample: the filter value "GP" does not return the stored GPU
part; it is rejected up front with InvalidType 400 because "GP" uppercased
is not in the gate set, even though "GP" is a substring of "GPU". -/
theorem C3_counterexample :
    gpu_part.type = "GPU" ∧ gpu_part ∈ db_gpu.parts ∧
    get_part (some "GP") db_gpu = (part_type_invalid, db_gpu) ∧
    part_type_invalid.code = 400 := by
  decide

/-- C3 amended: the gate check runs before matching: a nonempty filter
whose uppercasing is not in the gate set fails with InvalidType 400 for
every store, and a filter passing the gate selects by case-insensitive
substring match. -/
theorem C3_filter_gate (t : String) (db : DB) (hne : t ≠ "") :
    (str_upper t ∉ (["GPU", "CPU"] : List String) →
      get_part (some t) db = (part_type_invalid, db)) ∧
    (str_upper t ∈ (["GPU", "CPU"] : List String) →
      get_part (some t) db =
        (⟨list_response (db.parts.filter (fun q => ilike_contains q.type t)), 200⟩, db)) := by
  constructor <;> intro h <;> unfold get_part
  · rw [if_pos (by simpa using hne), if_pos (by simpa using h)]
  · rw [if_pos (by simpa using hne), if_neg (fun hc => hc h)]
    rfl

/-- Witness instantiating C3_filter_gate at the filter value "GP". -/
theorem C3_filter_gate_witness :
    ("GP" : String) ≠ "" ∧
    ((str_upper "GP" ∉ (["GPU", "CPU"] : List String) →
       get_part (some "GP") db_gpu = (part_type_invalid, db_gpu)) ∧
     (str_upper "GP" ∈ (["GPU", "CPU"] : List String) →
       get_part (some "GP") db_gpu =
         (⟨list_response (db_gpu.parts.filter (fun q => ilike_contains q.type "GP")), 200⟩,
          db_gpu))) :=
  ⟨by decide, C3_filter_gate "GP" db_gpu (by decide)⟩

theorem list_response_spec (l : List Part) (n : Nat) (avg : Rat) (ps : List Projection)
    (h : list_response l = .listing n avg ps) :
    n = ps.length ∧
    (ps ≠ [] → avg = round2 ((ps.map (fun r => r.price)).sum / (ps.length : Rat))) ∧
    (ps = [] → avg = 0) := by
  unfold list_response at h
  injection h with h1 h2 h3
  subst h1
  subst h3
  refine ⟨rfl, ?_, ?_⟩
  · intro hne
    rw [← h2, if_pos (fun hc => hne (List.length_eq_zero.mp hc))]
  · intro he
    rw [← h2, if_neg (by simp [he])]

/-- C5: whenever the list endpoint answers with a listing, its total is the
length of the projected list and its average_price is the rounded average
of the projected prices, 0 when the projection is empty. -/
theorem C5_average (q : Option String) (db : DB) (n : Nat) (avg : Rat)
    (ps : List Projection)
    (h : (get_part q db).1.body = .listing n avg ps) :
    n = ps.length ∧
    (ps ≠ [] → avg = round2 ((ps.map (fun r => r.price)).sum / (ps.length : Rat))) ∧
    (ps = [] → avg = 0) := by
  unfold get_part at h
  by_cases h1 : q.getD "" ≠ ""
  · rw [if_pos h1] at h
    by_cases h2 : str_upper (q.getD "") ∉ (["GPU", "CPU"] : List String)
    · rw [if_pos h2] at h
      exact absurd h (by simp [part_type_invalid])
    · rw [if_neg h2] at h
      exact list_response_spec _ n avg ps h
  · rw [if_neg h1] at h
    exact list_response_spec _ n avg ps h

/-- Witness instantiating C5_average on the empty store. -/
theorem C5_average_witness :
    (get_part none initDB).1.body = Body.listing 0 0 [] ∧
    (0 = ([] : List Projection).length ∧
     (([] : List Projection) ≠ [] →
       (0 : Rat) = round2 ((([] : List Projection).map (fun r => r.price)).sum
         / ((([] : List Projection).length : Nat) : Rat))) ∧
     (([] : List Projection) = [] → (0 : Rat) = 0)) :=
  ⟨by decide, C5_average none initDB 0 0 [] (by decide)⟩


/-- C6: on an existing id, a PATCH payload with no id key and a valid type
if present succeeds with 200; exactly the recognized keys present in the
payload overwrite the matching fields of the targeted record, every absent
recognized key and the id keep their prior values, and the unrecognized
keys have no effect on the outcome. -/
theorem C6_patch_frame (id : Nat) (p : Payload) (db : DB) (part : Part)
    (hfind : db.parts.find? (fun q => q.id == id) = some part)
    (hid : p.idKey = false)
    (hty : ∀ ty, p.type = some ty → str_lower ty ∈ (["cpu", "gpu"] : List String)) :
    modify_part id p db =
      (⟨.ok "Part modified", 200⟩,
       ⟨db.parts.map (fun q => if q.id == id then merge_part p q else q), db.nextId⟩) ∧
    (merge_part p part).id = part.id ∧
    (merge_part p part).name = p.name.getD part.name ∧
    (merge_part p part).type = p.type.getD part.type ∧
    (merge_part p part).release_date = p.release_date.getD part.release_date ∧
    (merge_part p part).core_clock = p.core_clock.getD part.core_clock ∧
    (merge_part p part).boost_clock = p.boost_clock.getD part.boost_clock ∧
    (merge_part p part).clock_unit = p.clock_unit.getD part.clock_unit ∧
    (merge_part p part).price = p.price.getD part.price ∧
    (merge_part p part).TDP = p.TDP.getD part.TDP ∧
    (merge_part p part).part_no = p.part_no.getD part.part_no ∧
    (∀ ex : List String, modify_part id p db = modify_part id { p with extra := ex } db) := by
  have hcheck :
      (p.type.any fun ty => !((["cpu", "gpu"] : List String).contains (str_lower ty)))
        = false := by
    cases hpt : p.type with
    | none => rfl
    | some ty =>
      show (!((["cpu", "gpu"] : List String).contains (str_lower ty))) = false
      rw [Bool.not_eq_false']
      exact List.elem_eq_true_of_mem (hty ty hpt)
  refine ⟨?_, rfl, rfl, rfl, rfl, rfl, rfl, rfl, rfl, rfl, rfl, fun ex => rfl⟩
  unfold modify_part
  rw [hfind, if_neg (by simp [hid]), if_neg (by rw [hcheck]; simp)]

/-- Sample PATCH payload touching only name and price, with unrecognized
keys present. -/
def patch_name_price : Payload :=
  ⟨false, some "B2", none, none, none, none, none, some 150, none, none, ["color", "vendor"]⟩

/-- Witness instantiating C6_patch_frame on the one-row store. -/
theorem C6_patch_frame_witness :
    db1.parts.find? (fun q => q.id == 1) = some part1 ∧
    patch_name_price.idKey = false ∧
    (∀ ty, patch_name_price.type = some ty →
      str_lower ty ∈ (["cpu", "gpu"] : List String)) ∧
    (modify_part 1 patch_name_price db1 =
      (⟨.ok "Part modified", 200⟩,
       ⟨db1.parts.map (fun q => if q.id == 1 then merge_part patch_name_price q else q),
        db1.nextId⟩) ∧
     (merge_part patch_name_price part1).id = part1.id ∧
     (merge_part patch_name_price part1).name = patch_name_price.name.getD part1.name ∧
     (merge_part patch_name_price part1).type = patch_name_price.type.getD part1.type ∧
     (merge_part patch_name_price part1).release_date
       = patch_name_price.release_date.getD part1.release_date ∧
     (merge_part patch_name_price part1).core_clock
       = patch_name_price.core_clock.getD part1.core_clock ∧
     (merge_part patch_name_price part1).boost_clock
       = patch_name_price.boost_clock.getD part1.boost_clock ∧
     (merge_part patch_name_price part1).clock_unit
       = patch_name_price.clock_unit.getD part1.clock_unit ∧
     (merge_part patch_name_price part1).price = patch_name_price.price.getD part1.price ∧
     (merge_part patch_name_price part1).TDP = patch_name_price.TDP.getD part1.TDP ∧
     (merge_part patch_name_price part1).part_no
       = patch_name_price.part_no.getD part1.part_no ∧
     (∀ ex : List String,
       modify_part 1 patch_name_price db1
         = modify_part 1 { patch_name_price with extra := ex } db1)) :=
  And.intro (by decide) (And.intro (by decide) (And.intro
    (fun ty h => nomatch (show (none : Option String) = some ty from h))
    (C6_patch_frame 1 patch_name_price db1 part1 (by decide) (by decide)
      (fun ty h => nomatch (show (none : Option String) = some ty from h)))))

/-- C8: for a stored part with a boost clock, a successful FullUpdate whose
payload omits boost_clock clears it to none (replace semantics), while a
successful PartialUpdate whose payload omits boost_clock leaves it at its
prior value (merge semantics), as observed through GetById. -/
theorem C8_boost_semantics (id : Nat) (db : DB) (part : Part) (b : Rat) (pf pp : Payload)
    (hfind : db.parts.find? (fun q => q.id == id) = some part)
    (hb : part.boost_clock = some b)
    (hfid : pf.idKey = false) (hfm : missing_fields pf = [])
    (hfty : ¬(pf.type.getD "" ≠ ""
      ∧ str_upper (pf.type.getD "") ∉ (["CPU", "GPU"] : List String)))
    (hfb : pf.boost_clock = none)
    (hpid : pp.idKey = false)
    (hpty : ∀ ty, pp.type = some ty → str_lower ty ∈ (["cpu", "gpu"] : List String))
    (hpb : pp.boost_clock = none) :
    ((update_part id pf db).1 = ⟨.ok "Part details updated", 200⟩ ∧
     (get_part_by_id id (update_part id pf db).2).1.body
       = .partRecord (replace_part pf part) ∧
     (replace_part pf part).boost_clock = none) ∧
    ((modify_part id pp db).1 = ⟨.ok "Part modified", 200⟩ ∧
     (get_part_by_id id (modify_part id pp db).2).1.body
       = .partRecord (merge_part pp part) ∧
     (merge_part pp part).boost_clock = some b) := by
  have hupd : update_part id pf db =
      (⟨.ok "Part details updated", 200⟩,
       ⟨db.parts.map (fun q => if q.id == id then replace_part pf q else q), db.nextId⟩) := by
    unfold update_part
    rw [hfind, if_neg (by simp [hfid]), if_neg (by simp [hfm]), if_neg hfty]
  have hcheck :
      (pp.type.any fun ty => !((["cpu", "gpu"] : List String).contains (str_lower ty)))
        = false := by
    cases hpt : pp.type with
    | none => rfl
    | some ty =>
      show (!((["cpu", "gpu"] : List String).contains (str_lower ty))) = false
      rw [Bool.not_eq_false']
      exact List.elem_eq_true_of_mem (hpty ty hpt)
  have hmod : modify_part id pp db =
      (⟨.ok "Part modified", 200⟩,
       ⟨db.parts.map (fun q => if q.id == id then merge_part pp q else q), db.nextId⟩) := by
    unfold modify_part
    rw [hfind, if_neg (by simp [hpid]), if_neg (by rw [hcheck]; simp)]
  have hfind2 :
      (db.parts.map (fun q => if q.id == id then replace_part pf q else q)).find?
        (fun r => r.id == id) = some (replace_part pf part) := by
    rw [find_map_update db.parts id (replace_part pf) (fun q => rfl), hfind]
    rfl
  have hfind3 :
      (db.parts.map (fun q => if q.id == id then merge_part pp q else q)).find?
        (fun r => r.id == id) = some (merge_part pp part) := by
    rw [find_map_update db.parts id (merge_part pp) (fun q => rfl), hfind]
    rfl
  refine ⟨⟨?_, ?_, ?_⟩, ⟨?_, ?_, ?_⟩⟩
  · rw [hupd]
  · rw [hupd]
    unfold get_part_by_id
    rw [hfind2]
  · simp [replace_part, hfb]
  · rw [hmod]
  · rw [hmod]
    unfold get_part_by_id
    rw [hfind3]
  · simp [merge_part, hpb, hb]

/-- Sample stored part with a boost clock of 5, and its store. -/
def boost_part : Part := ⟨1, "A", "CPU", 2020, 3, some 5, "MHz", 100, 65, "X1"⟩

/-- One-row storage holding boost_part. -/
def db_boost : DB := ⟨[boost_part], 2⟩

/-- Sample full-update payload omitting boost_clock. -/
def full_no_boost : Payload :=
  ⟨false, some "B", some "GPU", some 2021, some 4, none, some "MHz", some 200, some 95,
   some "X2", []⟩

/-- Sample PATCH payload touching only the name, omitting boost_clock. -/
def patch_name_only : Payload :=
  ⟨false, some "C", none, none, none, none, none, none, none, none, []⟩

/-- Witness instantiating C8_boost_semantics on the boost-clock store. -/
theorem C8_boost_semantics_witness :
    db_boost.parts.find? (fun q => q.id == 1) = some boost_part ∧
    boost_part.boost_clock = some 5 ∧
    full_no_boost.idKey = false ∧ missing_fields full_no_boost = [] ∧
    ¬(full_no_boost.type.getD "" ≠ ""
      ∧ str_upper (full_no_boost.type.getD "") ∉ (["CPU", "GPU"] : List String)) ∧
    full_no_boost.boost_clock = none ∧
    patch_name_only.idKey = false ∧ patch_name_only.boost_clock = none ∧
    (((update_part 1 full_no_boost db_boost).1 = ⟨.ok "Part details updated", 200⟩ ∧
      (get_part_by_id 1 (update_part 1 full_no_boost db_boost).2).1.body
        = .partRecord (replace_part full_no_boost boost_part) ∧
      (replace_part full_no_boost boost_part).boost_clock = none) ∧
     ((modify_part 1 patch_name_only db_boost).1 = ⟨.ok "Part modified", 200⟩ ∧
      (get_part_by_id 1 (modify_part 1 patch_name_only db_boost).2).1.body
        = .partRecord (merge_part patch_name_only boost_part) ∧
      (merge_part patch_name_only boost_part).boost_clock = some 5)) :=
  ⟨by decide, by decide, by decide, by decide, by decide, by decide, by decide, by decide,
    C8_boost_semantics 1 db_boost boost_part 5 full_no_boost patch_name_only
      (by decide) (by decide) (by decide) (by decide) (by decide) (by decide)
      (by decide) (fun ty h => nomatch (show (none : Option String) = some ty from h)) (by decide)⟩


/-- C4: from any reachable storage state, a valid create payload is
accepted with 200 and the id it returns was never assigned by any earlier
create and collides with no stored record; an immediately following
GetById on that id returns 200 with exactly the submitted field values
plus the assigned id, boost_clock being none when it was omitted. -/
theorem C4_create_then_get (ops : List Op) (p : Payload) (hc : create_ok p = true) :
    (add_part p (exec ops)).1 = ⟨.created "New part added" (exec ops).nextId, 200⟩ ∧
    (exec ops).nextId ∉ assigned_ids initDB ops ∧
    (∀ r ∈ (exec ops).parts, r.id ≠ (exec ops).nextId) ∧
    get_part_by_id (exec ops).nextId (add_part p (exec ops)).2 =
      (⟨.partRecord (new_part_of p (exec ops).nextId), 200⟩, (add_part p (exec ops)).2) ∧
    (new_part_of p (exec ops).nextId).id = (exec ops).nextId ∧
    (∀ x, p.name = some x → (new_part_of p (exec ops).nextId).name = x) ∧
    (∀ x, p.type = some x → (new_part_of p (exec ops).nextId).type = x) ∧
    (∀ x, p.release_date = some x → (new_part_of p (exec ops).nextId).release_date = x) ∧
    (∀ x, p.core_clock = some x → (new_part_of p (exec ops).nextId).core_clock = x) ∧
    (∀ x, p.boost_clock = some x → (new_part_of p (exec ops).nextId).boost_clock = x) ∧
    (p.boost_clock = none → (new_part_of p (exec ops).nextId).boost_clock = none) ∧
    (∀ x, p.clock_unit = some x → (new_part_of p (exec ops).nextId).clock_unit = x) ∧
    (∀ x, p.price = some x → (new_part_of p (exec ops).nextId).price = x) ∧
    (∀ x, p.TDP = some x → (new_part_of p (exec ops).nextId).TDP = x) ∧
    (∀ x, p.part_no = some x → (new_part_of p (exec ops).nextId).part_no = x) := by
  have hs := add_part_success p (exec ops) hc
  have hidinv : IdInv (exec ops) := exec_id_inv ops
  refine ⟨?_, ?_, ?_, ?_, rfl, ?_, ?_, ?_, ?_, ?_, ?_, ?_, ?_, ?_, ?_⟩
  · rw [hs]
  · intro hmem
    exact absurd (assigned_lt ops initDB _ hmem) (lt_irrefl _)
  · intro r hr
    exact Nat.ne_of_lt (hidinv r hr)
  · have h2 : (add_part p (exec ops)).2 =
        ⟨(exec ops).parts ++ [new_part_of p (exec ops).nextId], (exec ops).nextId + 1⟩ :=
      congrArg Prod.snd hs
    rw [h2]
    unfold get_part_by_id
    have hfind :
        ((exec ops).parts ++ [new_part_of p (exec ops).nextId]).find?
          (fun q => q.id == (exec ops).nextId) = some (new_part_of p (exec ops).nextId) := by
      apply find_append_last
      · exact find_none_of_lt _ _ hidinv
      · simp [new_part_of]
    rw [hfind]
  · intro x hx
    simp [new_part_of, hx]
  · intro x hx
    simp [new_part_of, hx]
  · intro x hx
    simp [new_part_of, hx]
  · intro x hx
    simp [new_part_of, hx]
  · intro x hx
    simp [new_part_of, hx]
  · intro hx
    simp [new_part_of, hx]
  · intro x hx
    simp [new_part_of, hx]
  · intro x hx
    simp [new_part_of, hx]
  · intro x hx
    simp [new_part_of, hx]
  · intro x hx
    simp [new_part_of, hx]

/-- Witness instantiating C4_create_then_get on the empty run. -/
theorem C4_create_then_get_witness :
    create_ok valid_payload = true ∧
    ((add_part valid_payload (exec [])).1
        = ⟨.created "New part added" (exec ([] : List Op)).nextId, 200⟩ ∧
     (exec ([] : List Op)).nextId ∉ assigned_ids initDB [] ∧
     (∀ r ∈ (exec ([] : List Op)).parts, r.id ≠ (exec ([] : List Op)).nextId) ∧
     get_part_by_id (exec ([] : List Op)).nextId (add_part valid_payload (exec [])).2 =
       (⟨.partRecord (new_part_of valid_payload (exec ([] : List Op)).nextId), 200⟩,
        (add_part valid_payload (exec [])).2) ∧
     (new_part_of valid_payload (exec ([] : List Op)).nextId).id
       = (exec ([] : List Op)).nextId ∧
     (∀ x, valid_payload.name = some x →
       (new_part_of valid_payload (exec ([] : List Op)).nextId).name = x) ∧
     (∀ x, valid_payload.type = some x →
       (new_part_of valid_payload (exec ([] : List Op)).nextId).type = x) ∧
     (∀ x, valid_payload.release_date = some x →
       (new_part_of valid_payload (exec ([] : List Op)).nextId).release_date = x) ∧
     (∀ x, valid_payload.core_clock = some x →
       (new_part_of valid_payload (exec ([] : List Op)).nextId).core_clock = x) ∧
     (∀ x, valid_payload.boost_clock = some x →
       (new_part_of valid_payload (exec ([] : List Op)).nextId).boost_clock = x) ∧
     (valid_payload.boost_clock = none →
       (new_part_of valid_payload (exec ([] : List Op)).nextId).boost_clock = none) ∧
     (∀ x, valid_payload.clock_unit = some x →
       (new_part_of valid_payload (exec ([] : List Op)).nextId).clock_unit = x) ∧
     (∀ x, valid_payload.price = some x →
       (new_part_of valid_payload (exec ([] : List Op)).nextId).price = x) ∧
     (∀ x, valid_payload.TDP = some x →
       (new_part_of valid_payload (exec ([] : List Op)).nextId).TDP = x) ∧
     (∀ x, valid_payload.part_no = some x →
       (new_part_of valid_payload (exec ([] : List Op)).nextId).part_no = x)) :=
  ⟨by decide, C4_create_then_get [] valid_payload (by decide)⟩

end PartsApp

